import Mathlib

set_option maxHeartbeats 1000000

/-!
Verification of the multi-agent meeting orchestration and structured-extraction
logic of `langchain_agents.py`. Python strings are modelled as `List Char`,
Python dictionaries as association lists, and the fallible pieces of the
extraction pipeline as `Except`-valued functions.
-/

namespace ILD

/-- Coerce a Lean string literal to the `List Char` representation used by the
string-processing model. -/
def S (s : String) : List Char := s.data

/-- Python `str.lower()` restricted to the ASCII range, which covers every
alphabetic character appearing in the modelled source. -/
def pyLower (s : List Char) : List Char := s.map Char.toLower

/-- Tests whether `pre` is a leading segment of `l` (character-wise). -/
def leadsWith : List Char → List Char → Bool
  | _, [] => true
  | [], _ :: _ => false
  | a :: as, b :: bs => a == b && leadsWith as bs

/-- Python substring containment `needle in haystack`. -/
def containsSub : List Char → List Char → Bool
  | [], needle => needle.isEmpty
  | c :: rest, needle => leadsWith (c :: rest) needle || containsSub rest needle

/-- Python `str.split(sep)` for a single-character separator: splits on every
occurrence and keeps empty pieces, so the result is always non-empty. -/
def pySplit (sep : Char) : List Char → List (List Char)
  | [] => [[]]
  | c :: cs =>
    if c == sep then [] :: pySplit sep cs
    else
      match pySplit sep cs with
      | [] => [[c]]
      | l :: ls => (c :: l) :: ls

/-- The whitespace characters stripped by Python `str.strip()` (ASCII range). -/
def isPyWhitespace (c : Char) : Bool :=
  c == ' ' || c == '\t' || c == '\n' || c == '\r' || c == Char.ofNat 11 || c == Char.ofNat 12

/-- Python `str.strip()`: remove leading and trailing whitespace. -/
def pyStrip (l : List Char) : List Char :=
  ((l.dropWhile isPyWhitespace).reverse.dropWhile isPyWhitespace).reverse

/-!
## Risk assessment extraction

Models the fallback block of `run_multidisciplinary_meeting`
(src/langchain_agents.py, lines 427-456): the coordinator answer to the risk
query is lowercased and scanned for the risk-level keywords in a fixed
priority order, and bullet lines are collected as risk factors.
-/

/-- The risk-level keyword scan (lines 429-437): the lowercased text is
checked for high/severe, then moderate/medium, then low/mild risk markers,
first match winning, with `Unknown` as the default. -/
def extractRiskLevel (output : List Char) : List Char :=
  let risk_text := pyLower output
  if containsSub risk_text (S "high risk") || containsSub risk_text (S "severe risk") then
    S "High"
  else if containsSub risk_text (S "moderate risk") || containsSub risk_text (S "medium risk") then
    S "Moderate"
  else if containsSub risk_text (S "low risk") || containsSub risk_text (S "mild risk") then
    S "Low"
  else
    S "Unknown"

/-- Test from line 445: `line.strip().startswith('-') or line.strip().startswith('*')`. -/
def bulletLine (line : List Char) : Bool :=
  match pyStrip line with
  | '-' :: _ => true
  | '*' :: _ => true
  | _ => false

/-- Cleanup from line 446: `line.strip().lstrip('-*').strip()`. -/
def cleanBulletLine (line : List Char) : List Char :=
  pyStrip ((pyStrip line).dropWhile (fun c => c == '-' || c == '*'))

/-- The risk-factor collection (lines 442-452): bullet lines of the risk
answer are collected and cleaned; when none exist the sentinel entry is
produced instead of an empty list. -/
def extract_risk_factors (output : List Char) : List (List Char) :=
  let risk_factors := ((pySplit '\n' output).filter bulletLine).map cleanBulletLine
  if risk_factors.isEmpty then [S "Risk factors not clearly identified"] else risk_factors

/-!
## Specialist selection

Models lines 291-300 of `run_multidisciplinary_meeting`: roster role names
are matched case-insensitively as substrings of the coordinator routing text,
falling back to the whole roster when nothing matches.
-/

/-- The roster keys of `setup_multidisciplinary_meeting` (lines 200-236), in
dictionary insertion order. -/
def specialist_roster : List (List Char) :=
  [S "pulmonologist", S "rheumatologist", S "radiologist", S "cardiologist"]

/-- The specialist-selection heuristic (lines 291-300). -/
def selectRespondingSpecialists (coordinatorOutput : List Char) (roster : List (List Char)) :
    List (List Char) :=
  let response_lower := pyLower coordinatorOutput
  let responding := roster.filter (fun s => containsSub response_lower (pyLower s))
  if responding.isEmpty then roster else responding

/-!
## Checklist extraction

Models the parsing of the combined 8-question checklist answer in
`run_multidisciplinary_meeting` (lines 354-404). For each canonical Chinese
question identifier three descending-confidence passes are attempted, then a
final default. The first pass indexes `line.split(":", 1)[1]`, which raises
`IndexError` when the located line holds no ASCII colon; that possible
exception is modelled with `Except`.
-/

/-- The 8 canonical Chinese question identifiers, in the insertion order of
the `key_questions` dictionary (lines 324-333). -/
def key_questions : List (List Char) :=
  [S "是否為 ILD",
   S "是否為 Indeterminate",
   S "是否為 UIP",
   S "是否還有 NSIP pattern",
   S "是否還有免風疾病活動性(activity) 病變",
   S "是否 ILD 持續進展",
   S "是否調整免疫治療藥物",
   S "是否建議使用抗肺纖維化藥物"]

/-- The DISCUSSION_QUESTIONS constant (lines 41-50). -/
def DISCUSSION_QUESTIONS : List (List Char) :=
  [S "Is this patient\x27s condition considered ILD?",
   S "Is this an indeterminate case?",
   S "Does the patient have UIP pattern?",
   S "Is there any NSIP pattern present?",
   S "Is there ongoing rheumatic disease activity?",
   S "Is the ILD progressing?",
   S "Should we adjust the immunosuppressive therapy?",
   S "Should we recommend anti-fibrotic medication?"]

/-- The per-question keyword table of the fallback passes (lines 370-379). -/
def question_keywords : List (List Char × List (List Char)) :=
  [(S "是否為 ILD", [S "ILD", S "interstitial lung disease"]),
   (S "是否為 Indeterminate", [S "indeterminate", S "uncertain", S "unclear"]),
   (S "是否為 UIP", [S "UIP", S "usual interstitial pneumonia"]),
   (S "是否還有 NSIP pattern", [S "NSIP", S "non-specific interstitial pneumonia"]),
   (S "是否還有免風疾病活動性(activity) 病變", [S "rheumatic", S "autoimmune", S "activity"]),
   (S "是否 ILD 持續進展", [S "progress", S "progression", S "progressing", S "worsen"]),
   (S "是否調整免疫治療藥物", [S "adjust", S "immunosuppressive", S "change therapy"]),
   (S "是否建議使用抗肺纖維化藥物",
    [S "anti-fibrotic", S "antifibrotic", S "pirfenidone", S "nintedanib"])]

/-- Keyword lookup `keywords[zh_question]`; every canonical identifier is a
key of the table, so the default branch is unreachable on canonical input. -/
def keywordsFor (zh : List Char) : List (List Char) :=
  (List.lookup zh question_keywords).getD []

/-- The characters after the first ASCII colon of a line, that is
`line.split(":", 1)[1]` when a colon is present. -/
def afterFirstColon (l : List Char) : List Char :=
  (l.dropWhile (fun c => c != ':')).drop 1

/-- First extraction pass (lines 361-364): locate the first line containing
the canonical question text and read the token after the first colon. When
the located line has no colon, `line.split(":", 1)` has a single element and
the subscript `[1]` raises `IndexError`, modelled as `Except.error`. -/
def firstPassAnswer (zh : List Char) (lines : List (List Char)) :
    Except Unit (Option (List Char)) :=
  match lines.find? (fun line => containsSub line zh) with
  | none => Except.ok none
  | some line =>
    if containsSub line (S ":") then
      Except.ok (some (if containsSub (pyStrip (afterFirstColon line)) (S "是") then S "是"
                       else S "否"))
    else
      Except.error ()

/-- The yes/no inference shared by the second and third passes (lines 386 and
396): an embedded affirmative token maps to 是, anything else to 否. -/
def yesNoFromLine (line : List Char) : List Char :=
  if containsSub (pyLower line) (S "yes") || containsSub line (S "是") then S "是" else S "否"

/-- The ordinal line markers `f"{line_num}."` for line numbers 1 to 8. -/
def linePrefixes : List (List Char) :=
  [S "1.", S "2.", S "3.", S "4.", S "5.", S "6.", S "7.", S "8."]

/-- Second extraction pass (lines 381-388): for each ordinal marker in turn,
the first line holding both the marker and one of the question keywords
(case-insensitively) yields an answer; a later marker match overwrites an
earlier one because the outer loop does not break. -/
def secondPassAnswer (zh : List Char) (lines : List (List Char)) : Option (List Char) :=
  linePrefixes.foldl
    (fun acc line_prefix =>
      match lines.find? (fun line =>
          containsSub line line_prefix &&
            (keywordsFor zh).any (fun kw => containsSub (pyLower line) (pyLower kw))) with
      | some line => some (yesNoFromLine line)
      | none => acc)
    none

/-- Third extraction pass (lines 390-398): for each discussion question whose
lowercased text holds one of the question keywords, the first line holding
the matching ordinal marker yields an answer; again a later match overwrites
an earlier one. -/
def thirdPassAnswer (zh : List Char) (lines : List (List Char)) : Option (List Char) :=
  (linePrefixes.zip DISCUSSION_QUESTIONS).foldl
    (fun acc pq =>
      if (keywordsFor zh).any (fun kw => containsSub (pyLower pq.2) (pyLower kw)) then
        match lines.find? (fun line => containsSub line pq.1) with
        | some line => some (yesNoFromLine line)
        | none => acc
      else acc)
    none

/-- The complete answer for one canonical question: first pass, then second,
then third, then the final default 否 (lines 359-402). -/
def checklistAnswer (zh : List Char) (lines : List (List Char)) : Except Unit (List Char) :=
  match firstPassAnswer zh lines with
  | Except.error e => Except.error e
  | Except.ok (some a) => Except.ok a
  | Except.ok none =>
    match secondPassAnswer zh lines with
    | some a => Except.ok a
    | none =>
      match thirdPassAnswer zh lines with
      | some a => Except.ok a
      | none => Except.ok (S "否")

/-- Sequential answer extraction over a list of question identifiers; an
exception at any question aborts the whole extraction, as in the source. -/
def checklistAnswers (lines : List (List Char)) :
    List (List Char) → Except Unit (List (List Char × List Char))
  | [] => Except.ok []
  | zh :: rest =>
    match checklistAnswer zh lines with
    | Except.error e => Except.error e
    | Except.ok a =>
      match checklistAnswers lines rest with
      | Except.error e => Except.error e
      | Except.ok tail => Except.ok ((zh, a) :: tail)

/-- The `specific_questions` map built from the combined checklist response
(lines 354-404), keyed in canonical order. -/
def extract_specific_questions (response_text : List Char) :
    Except Unit (List (List Char × List Char)) :=
  checklistAnswers (pySplit '\n' response_text) key_questions

/-!
## Role template composition

Models the system-message interpolation of `create_specialist`
(lines 95-111) and one concrete roster description (lines 203-206).
-/

/-- The role-instructions f-string of `create_specialist` (lines 99-111),
interpolated with the specialist type and specialty description. -/
def specialist_system_message (specialist_type specialist_description : String) : String :=
  "You are an experienced " ++ specialist_type ++ " physician specialist. \n" ++
  specialist_description ++ "\n    \n" ++
  "You are participating in a multidisciplinary team meeting discussing a patient with \n" ++
  "suspected interstitial lung disease. Consider the patient information carefully, and \n" ++
  "provide your perspective based on your specialty.\n\n" ++
  "Respond in a professional medical tone, using appropriate medical terminology while \n" ++
  "being concise and focused on your area of expertise. When discussing with other specialists,\n" ++
  "acknowledge their input and build upon the dialogue constructively.\n\n" ++
  "Remember that this is a collaborative discussion with the goal of developing the \n" ++
  "best care plan for the patient."

/-- The specialty description passed for the pulmonologist role
(lines 203-206). -/
def pulmonologist_description : String :=
  "You specialize in respiratory medicine with expertise in interstitial lung diseases.\n" ++
  "            Your focus is on lung function, imaging patterns, and distinguishing between different \n" ++
  "            ILD subtypes. You have extensive experience with HRCT interpretation for ILD and \n" ++
  "            understand the nuances of UIP vs NSIP patterns."

/-!
## Agent memory model

Modelled from the spec: the `respond` operation of an Agent is realized in
the source by the external LangChain classes `AgentExecutor` and
`ConversationBufferMemory`, wired by `create_specialist` (lines 126-136) but
not themselves part of this repository, so their behavior is taken from the
specification: one call appends a user turn and an assistant turn to the
private memory, and the full prior memory is the context of the call. The
completion backend is an explicit parameter.
-/

/-- An Agent private conversation memory: an ordered list of
(speaker, text) turns. -/
structure SAgent where
  memory : List (String × String)

/-- A fresh Agent as built by `create_specialist`: empty conversation
memory. -/
def create_agent : SAgent := ⟨[]⟩

/-- Modelled from the spec: one `respond(input)` call. The backend receives
the full prior memory as context and the produced turns are appended. -/
def respond (backend : List (String × String) → String → String) (a : SAgent)
    (input : String) : SAgent × String :=
  let output := backend a.memory input
  (⟨a.memory ++ [("user", input), ("assistant", output)]⟩, output)

/-- Iterated `respond` calls, threading the Agent state. -/
def respondMany (backend : List (String × String) → String → String) (a : SAgent) :
    List String → SAgent
  | [] => a
  | input :: rest => respondMany backend (respond backend a input).1 rest

/-- The contexts supplied to successive `respond` calls: entry `n` is the
memory passed to call `n+1`. -/
def respondContexts (backend : List (String × String) → String → String) (a : SAgent) :
    List String → List (List (String × String))
  | [] => []
  | input :: rest => a.memory :: respondContexts backend (respond backend a input).1 rest

/-!
## Per-question discussion loop

Models lines 302-312 of `run_multidisciplinary_meeting`: the selected
specialists are invoked by a sequential Python for-loop, and after each
invocation the response is relayed into the coordinator memory with
`add_user_message` before the loop advances.
-/

/-- Python `str.title()` restricted to alphabetic casing: a letter is
uppercased when the previous character is not a letter, lowercased
otherwise. -/
def pyTitleGo : Bool → List Char → List Char
  | _, [] => []
  | prevAlpha, c :: cs =>
    (if prevAlpha then c.toLower else c.toUpper) :: pyTitleGo c.isAlpha cs

/-- Python `str.title()` on the model strings. -/
def pyTitle (s : String) : String := ⟨pyTitleGo false s.data⟩

/-- The relayed message `f"{specialist_type.title()}: {output}"` added to the
coordinator memory (line 312). -/
def relayMessage (specialist_type output : String) : String :=
  pyTitle specialist_type ++ ": " ++ output

/-- The per-specialist prompt f-string of the discussion loop
(lines 305-307). -/
def specialistContext (question specialist_type : String) : String :=
  "The coordinator has asked the team to address: " ++ question ++
  "\n            As the " ++ specialist_type ++
  ", please provide a VERY BRIEF response limited to 60 words maximum.\n" ++
  "            Focus only on the most critical points from your specialty\x27s perspective."

/-- The observable state of the discussion loop for one question: the
coordinator memory (its relayed user messages), each specialist private
memory, the recorded responses, and an invocation trace pairing each invoked
specialist with the coordinator memory at the moment of invocation. -/
structure DiscussionState where
  coordMem : List String
  specMem : String → List (String × String)
  responses : List (String × String)
  invocations : List (String × List String)

/-- The sequential for-loop over the selected specialists (lines 302-312):
invoke one specialist, record its response, relay the response into the
coordinator memory, then continue with the rest. -/
def questionLoop (backend : List (String × String) → String → String) (question : String) :
    List String → DiscussionState → DiscussionState
  | [], st => st
  | specialist_type :: rest, st =>
    let mem := st.specMem specialist_type
    let ctx := specialistContext question specialist_type
    let output := backend mem ctx
    questionLoop backend question rest
      { coordMem := st.coordMem ++ [relayMessage specialist_type output],
        specMem := fun n =>
          if n = specialist_type then mem ++ [("user", ctx), ("assistant", output)]
          else st.specMem n,
        responses := st.responses ++ [(specialist_type, output)],
        invocations := st.invocations ++ [(specialist_type, st.coordMem)] }

/-- One discussion-question round started from given coordinator memory and
specialist memories, with empty response and trace accumulators. -/
def runQuestion (backend : List (String × String) → String → String) (question : String)
    (coordMem0 : List String) (specMem0 : String → List (String × String))
    (selected : List String) : DiscussionState :=
  questionLoop backend question selected ⟨coordMem0, specMem0, [], []⟩

/-!
## Patient analysis records

Models `analyze_patient_with_langchain` (lines 460-501) and
`analyze_patients_with_langchain` (lines 503-555). Python values are
modelled by `PyVal` and dictionaries by association lists; a raised
exception is an `Except.error` carrying a message. The success branch reads
`patient_data["id"]` and `patient_data["name"]` with raising subscripts,
while the error branch uses defaulted `dict.get` lookups.
-/

/-- A Python value as needed by the analysis records: a string, a list, or a
string-keyed dictionary. -/
inductive PyVal where
  | s (str : String)
  | list (items : List PyVal)
  | dict (entries : List (String × PyVal))

/-- Python `d.get(k, default)`: defaulted dictionary lookup, never raises. -/
def pyDictGet (d : List (String × PyVal)) (k : String) (default : PyVal) : PyVal :=
  (List.lookup k d).getD default

/-- Python `d[k]`: dictionary subscript, raises `KeyError` when the key is
absent. -/
def pyDictItem (d : List (String × PyVal)) (k : String) : Except String PyVal :=
  match List.lookup k d with
  | some v => Except.ok v
  | none => Except.error ("KeyError: " ++ k)

/-- Subscript access on a nested value, as in
`results["risk_assessment"]["risk_level"]`. -/
def pyIndexVal (v : PyVal) (k : String) : Except String PyVal :=
  match v with
  | PyVal.dict d => pyDictItem d k
  | _ => Except.error "TypeError"

/-- The success-branch record construction (lines 475-487), with the
subscript reads performed in Python evaluation order; any missing key makes
the whole construction raise. -/
def analysis_success_record (patient_data results : List (String × PyVal)) :
    Except String (List (String × PyVal)) :=
  match pyDictItem patient_data "id" with
  | Except.error e => Except.error e
  | Except.ok pid =>
  match pyDictItem patient_data "name" with
  | Except.error e => Except.error e
  | Except.ok pname =>
  match pyDictItem results "diagnosis_analysis" with
  | Except.error e => Except.error e
  | Except.ok diag =>
  match pyDictItem results "treatment_recommendations" with
  | Except.error e => Except.error e
  | Except.ok treat =>
  match pyDictItem results "progression_assessment" with
  | Except.error e => Except.error e
  | Except.ok prog =>
  match pyDictItem results "risk_assessment" with
  | Except.error e => Except.error e
  | Except.ok riskAssess =>
  match pyIndexVal riskAssess "risk_level" with
  | Except.error e => Except.error e
  | Except.ok riskLevel =>
  match pyIndexVal riskAssess "risk_factors" with
  | Except.error e => Except.error e
  | Except.ok riskFactors =>
  match pyDictItem results "specialist_impressions" with
  | Except.error e => Except.error e
  | Except.ok impressions =>
  match pyDictItem results "discussion_points" with
  | Except.error e => Except.error e
  | Except.ok discussion =>
  match pyDictItem results "conclusion" with
  | Except.error e => Except.error e
  | Except.ok conclusion =>
  match pyDictItem results "specific_questions" with
  | Except.error e => Except.error e
  | Except.ok sq =>
    Except.ok
      [("patient_id", pid), ("patient_name", pname), ("diagnosis_analysis", diag),
       ("treatment_recommendations", treat), ("progression_assessment", prog),
       ("risk_level", riskLevel), ("risk_factors", riskFactors),
       ("specialist_impressions", impressions), ("meeting_discussion", discussion),
       ("meeting_conclusion", conclusion), ("specific_questions", sq)]

/-- The error-branch record (lines 492-501): defaulted identifier lookups,
placeholder summaries, Unknown risk level, the sentinel risk-factor list and
an empty checklist. -/
def analysis_error_record (patient_data : List (String × PyVal)) (errMsg : String) :
    List (String × PyVal) :=
  [("patient_id", pyDictGet patient_data "id" (PyVal.s "unknown")),
   ("patient_name", pyDictGet patient_data "name" (PyVal.s "unknown")),
   ("diagnosis_analysis", PyVal.s ("Analysis could not be completed: " ++ errMsg)),
   ("treatment_recommendations", PyVal.s "No recommendations available due to analysis error"),
   ("progression_assessment", PyVal.s "No assessment available due to analysis error"),
   ("risk_level", PyVal.s "Unknown"),
   ("risk_factors", PyVal.list [PyVal.s "Analysis error"]),
   ("specific_questions", PyVal.dict [])]

/-- The body of the `try` block (lines 471-489): run the meeting, then build
the success record. -/
def analyze_try_body (run_meeting : List (String × PyVal) → Except String (List (String × PyVal)))
    (patient_data : List (String × PyVal)) : Except String (List (String × PyVal)) :=
  match run_meeting patient_data with
  | Except.error e => Except.error e
  | Except.ok results => analysis_success_record patient_data results

/-- `analyze_patient_with_langchain` (lines 460-501): any exception raised in
the `try` body resolves to the error-branch record. -/
def analyze_patient_with_langchain
    (run_meeting : List (String × PyVal) → Except String (List (String × PyVal)))
    (patient_data : List (String × PyVal)) : List (String × PyVal) :=
  match analyze_try_body run_meeting patient_data with
  | Except.ok r => r
  | Except.error e => analysis_error_record patient_data e

/-- `analyze_patients_with_langchain` (lines 503-555): the per-patient loop;
its own except branch is unreachable in this model because the per-patient
analysis already resolves every exception internally. -/
def analyze_patients_with_langchain
    (run_meeting : List (String × PyVal) → Except String (List (String × PyVal)))
    (patients_data : List (List (String × PyVal))) : List (List (String × PyVal)) :=
  patients_data.map (analyze_patient_with_langchain run_meeting)

/-!
## Helper lemmas
-/

lemma extractRiskLevel_unknown (output : List Char)
    (h1 : containsSub (pyLower output) (S "high risk") = false)
    (h2 : containsSub (pyLower output) (S "severe risk") = false)
    (h3 : containsSub (pyLower output) (S "moderate risk") = false)
    (h4 : containsSub (pyLower output) (S "medium risk") = false)
    (h5 : containsSub (pyLower output) (S "low risk") = false)
    (h6 : containsSub (pyLower output) (S "mild risk") = false) :
    extractRiskLevel output = S "Unknown" := by
  unfold extractRiskLevel
  simp [h1, h2, h3, h4, h5, h6]

lemma extract_risk_factors_of_no_bullets (output : List Char)
    (h : (pySplit '\n' output).filter bulletLine = []) :
    extract_risk_factors output = [S "Risk factors not clearly identified"] := by
  unfold extract_risk_factors
  simp [h]

/-!
## Claim theorems
-/

/-- C2: for each discussion question, when the coordinator routing text holds
none of the roster role names as a case-insensitive substring, every roster
specialist is selected (and the selection is non-empty whenever the roster
is); when one or more role names occur, exactly the matching specialists are
selected, in roster order. -/
theorem specialist_selection_fail_open (coordinatorOutput : List Char)
    (roster : List (List Char)) :
    ((∀ s ∈ roster, containsSub (pyLower coordinatorOutput) (pyLower s) = false) →
      selectRespondingSpecialists coordinatorOutput roster = roster) ∧
    ((∃ s ∈ roster, containsSub (pyLower coordinatorOutput) (pyLower s) = true) →
      selectRespondingSpecialists coordinatorOutput roster =
        roster.filter (fun s => containsSub (pyLower coordinatorOutput) (pyLower s))) ∧
    (roster ≠ [] → selectRespondingSpecialists coordinatorOutput roster ≠ []) := by
  unfold selectRespondingSpecialists
  refine ⟨?_, ?_, ?_⟩
  · intro h
    have hnil : roster.filter (fun s => containsSub (pyLower coordinatorOutput) (pyLower s)) = [] := by
      rw [List.filter_eq_nil_iff]
      intro a ha
      simp [h a ha]
    simp [hnil]
  · rintro ⟨s, hs, hmatch⟩
    have hne : roster.filter (fun s => containsSub (pyLower coordinatorOutput) (pyLower s)) ≠ [] := by
      intro hnil
      rw [List.filter_eq_nil_iff] at hnil
      exact absurd hmatch (by simpa using hnil s hs)
    simp [List.isEmpty_iff, hne]
  · intro hroster
    by_cases hfil : roster.filter (fun s => containsSub (pyLower coordinatorOutput) (pyLower s)) = []
    · simp [hfil, hroster]
    · simp [List.isEmpty_iff, hfil]

/-- Witness for C2 at a concrete routing text naming two roster roles. -/
theorem specialist_selection_fail_open_witness :
    (∃ s ∈ specialist_roster,
      containsSub (pyLower (S "I invite the Radiologist and cardiologist to comment"))
        (pyLower s) = true) ∧
    selectRespondingSpecialists (S "I invite the Radiologist and cardiologist to comment")
        specialist_roster =
      specialist_roster.filter
        (fun s => containsSub (pyLower (S "I invite the Radiologist and cardiologist to comment"))
          (pyLower s)) :=
  ⟨⟨S "radiologist", by decide, by decide⟩,
   (specialist_selection_fail_open (S "I invite the Radiologist and cardiologist to comment")
      specialist_roster).2.1 ⟨S "radiologist", by decide, by decide⟩⟩

/-- C3: the fallback risk-level recovery checks high, then moderate/medium,
then low/mild markers in that priority order with first match winning and
`Unknown` as default; text containing "high risk" anywhere yields High
regardless of other tokens, and low plus moderate tokens without high
resolve to Moderate. -/
theorem risk_level_priority (output : List Char) :
    (containsSub (pyLower output) (S "high risk") = true →
      extractRiskLevel output = S "High") ∧
    (containsSub (pyLower output) (S "high risk") = false →
      containsSub (pyLower output) (S "severe risk") = false →
      (containsSub (pyLower output) (S "moderate risk") = true ∨
        containsSub (pyLower output) (S "medium risk") = true) →
      extractRiskLevel output = S "Moderate") ∧
    (containsSub (pyLower output) (S "high risk") = false →
      containsSub (pyLower output) (S "severe risk") = false →
      containsSub (pyLower output) (S "moderate risk") = false →
      containsSub (pyLower output) (S "medium risk") = false →
      (containsSub (pyLower output) (S "low risk") = true ∨
        containsSub (pyLower output) (S "mild risk") = true) →
      extractRiskLevel output = S "Low") ∧
    (containsSub (pyLower output) (S "high risk") = false →
      containsSub (pyLower output) (S "severe risk") = false →
      containsSub (pyLower output) (S "moderate risk") = false →
      containsSub (pyLower output) (S "medium risk") = false →
      containsSub (pyLower output) (S "low risk") = false →
      containsSub (pyLower output) (S "mild risk") = false →
      extractRiskLevel output = S "Unknown") := by
  refine ⟨?_, ?_, ?_, fun h1 h2 h3 h4 h5 h6 => extractRiskLevel_unknown output h1 h2 h3 h4 h5 h6⟩
  · intro h
    unfold extractRiskLevel
    simp [h]
  · intro h1 h2 h3
    unfold extractRiskLevel
    rcases h3 with h3 | h3 <;> simp [h1, h2, h3]
  · intro h1 h2 h3 h4 h5
    unfold extractRiskLevel
    rcases h5 with h5 | h5 <;> simp [h1, h2, h3, h4, h5]

/-- Witness for C3 at a text holding both low and moderate markers but no
high marker: the priority order resolves it to Moderate. -/
theorem risk_level_priority_witness :
    (containsSub (pyLower (S "low risk to moderate risk overall")) (S "high risk") = false ∧
      containsSub (pyLower (S "low risk to moderate risk overall")) (S "severe risk") = false ∧
      containsSub (pyLower (S "low risk to moderate risk overall")) (S "moderate risk") = true ∧
      containsSub (pyLower (S "low risk to moderate risk overall")) (S "low risk") = true) ∧
    extractRiskLevel (S "low risk to moderate risk overall") = S "Moderate" :=
  ⟨⟨by decide, by decide, by decide, by decide⟩,
   (risk_level_priority (S "low risk to moderate risk overall")).2.1 (by decide) (by decide)
     (Or.inl (by decide))⟩

/-- C4: the extracted risk-factor list is never empty: bullet lines are
collected and cleaned, and when no bullet line exists the sentinel list is
produced; a response with no bullet lines and no risk keyword yields the
Unknown level together with the sentinel list. -/
theorem risk_factors_never_empty (output : List Char) :
    extract_risk_factors output ≠ [] ∧
    ((pySplit '\n' output).filter bulletLine ≠ [] →
      extract_risk_factors output =
        ((pySplit '\n' output).filter bulletLine).map cleanBulletLine) ∧
    ((pySplit '\n' output).filter bulletLine = [] →
      extract_risk_factors output = [S "Risk factors not clearly identified"]) ∧
    ((pySplit '\n' output).filter bulletLine = [] →
      containsSub (pyLower output) (S "high risk") = false →
      containsSub (pyLower output) (S "severe risk") = false →
      containsSub (pyLower output) (S "moderate risk") = false →
      containsSub (pyLower output) (S "medium risk") = false →
      containsSub (pyLower output) (S "low risk") = false →
      containsSub (pyLower output) (S "mild risk") = false →
      extractRiskLevel output = S "Unknown" ∧
      extract_risk_factors output = [S "Risk factors not clearly identified"]) := by
  refine ⟨?_, ?_, extract_risk_factors_of_no_bullets output,
    fun hb h1 h2 h3 h4 h5 h6 =>
      ⟨extractRiskLevel_unknown output h1 h2 h3 h4 h5 h6,
       extract_risk_factors_of_no_bullets output hb⟩⟩
  · by_cases hb : (pySplit '\n' output).filter bulletLine = []
    · rw [extract_risk_factors_of_no_bullets output hb]
      simp
    · unfold extract_risk_factors
      simp [List.isEmpty_iff, hb]
  · intro hb
    unfold extract_risk_factors
    simp [List.isEmpty_iff, hb]

/-- Witness for C4 at a response with neither bullet lines nor risk
keywords. -/
theorem risk_factors_never_empty_witness :
    ((pySplit '\n' (S "the team could not characterize this case")).filter bulletLine = [] ∧
      containsSub (pyLower (S "the team could not characterize this case")) (S "high risk") = false) ∧
    (extractRiskLevel (S "the team could not characterize this case") = S "Unknown" ∧
      extract_risk_factors (S "the team could not characterize this case") =
        [S "Risk factors not clearly identified"]) :=
  ⟨⟨by decide, by decide⟩,
   (risk_factors_never_empty (S "the team could not characterize this case")).2.2.2
     (by decide) (by decide) (by decide) (by decide) (by decide) (by decide) (by decide)⟩

/-- C9: role-template composition is pure: composing the role instructions
twice from equal specialist types and equal specialty descriptions yields
character-for-character identical text. -/
theorem role_template_deterministic (t1 d1 t2 d2 : String) (ht : t1 = t2) (hd : d1 = d2) :
    (specialist_system_message t1 d1).data = (specialist_system_message t2 d2).data := by
  subst ht
  subst hd
  rfl

/-- Witness for C9: building the pulmonologist role twice. -/
theorem role_template_deterministic_witness :
    (("Pulmonologist" : String) = "Pulmonologist" ∧
      pulmonologist_description = pulmonologist_description) ∧
    (specialist_system_message "Pulmonologist" pulmonologist_description).data =
      (specialist_system_message "Pulmonologist" pulmonologist_description).data :=
  ⟨⟨rfl, rfl⟩,
   role_template_deterministic "Pulmonologist" pulmonologist_description
     "Pulmonologist" pulmonologist_description rfl rfl⟩

lemma yesNoFromLine_shape (line : List Char) :
    yesNoFromLine line = S "是" ∨ yesNoFromLine line = S "否" := by
  unfold yesNoFromLine
  split
  · exact Or.inl rfl
  · exact Or.inr rfl

lemma foldl_option_shape {α : Type} (f : Option (List Char) → α → Option (List Char))
    (Q : List Char → Prop)
    (hf : ∀ acc x, f acc x = acc ∨ ∃ b, f acc x = some b ∧ Q b) :
    ∀ (xs : List α) (init : Option (List Char)) (a : List Char),
      xs.foldl f init = some a → init = some a ∨ Q a := by
  intro xs
  induction xs with
  | nil => intro init a h; exact Or.inl h
  | cons x xs ih =>
    intro init a h
    rcases ih (f init x) a h with h' | h'
    · rcases hf init x with h2 | ⟨b, h2, hb⟩
      · rw [h2] at h'
        exact Or.inl h'
      · rw [h2] at h'
        injection h' with hba
        subst hba
        exact Or.inr hb
    · exact Or.inr h'

lemma firstPassAnswer_shape (zh : List Char) (lines : List (List Char)) (a : List Char)
    (h : firstPassAnswer zh lines = Except.ok (some a)) :
    a = S "是" ∨ a = S "否" := by
  unfold firstPassAnswer at h
  cases hfind : lines.find? (fun line => containsSub line zh) with
  | none =>
    simp only [hfind] at h
    injection h with h'
    cases h'
  | some line =>
    simp only [hfind] at h
    by_cases hc : containsSub line (S ":") = true
    · rw [if_pos hc] at h
      injection h with h'
      injection h' with h''
      by_cases hy : containsSub (pyStrip (afterFirstColon line)) (S "是") = true
      · rw [if_pos hy] at h''
        exact Or.inl h''.symm
      · rw [if_neg hy] at h''
        exact Or.inr h''.symm
    · rw [if_neg hc] at h
      cases h

lemma secondPassAnswer_shape (zh : List Char) (lines : List (List Char)) (a : List Char)
    (h : secondPassAnswer zh lines = some a) :
    a = S "是" ∨ a = S "否" := by
  unfold secondPassAnswer at h
  have hmain := foldl_option_shape _ (fun b => b = S "是" ∨ b = S "否") ?hf linePrefixes none a h
  · rcases hmain with h' | h'
    · cases h'
    · exact h'
  case hf =>
    intro acc x
    cases hfind : lines.find? (fun line =>
        containsSub line x &&
          (keywordsFor zh).any (fun kw => containsSub (pyLower line) (pyLower kw))) with
    | none =>
      left
      simp [hfind]
    | some l =>
      right
      exact ⟨yesNoFromLine l, by simp [hfind], yesNoFromLine_shape l⟩

lemma thirdPassAnswer_shape (zh : List Char) (lines : List (List Char)) (a : List Char)
    (h : thirdPassAnswer zh lines = some a) :
    a = S "是" ∨ a = S "否" := by
  unfold thirdPassAnswer at h
  have hmain := foldl_option_shape _ (fun b => b = S "是" ∨ b = S "否") ?hf
    (linePrefixes.zip DISCUSSION_QUESTIONS) none a h
  · rcases hmain with h' | h'
    · cases h'
    · exact h'
  case hf =>
    intro acc pq
    by_cases hkw : ((keywordsFor zh).any fun kw => containsSub (pyLower pq.2) (pyLower kw)) = true
    · cases hfind : lines.find? (fun line => containsSub line pq.1) with
      | none =>
        left
        simp [hkw, hfind]
      | some l =>
        right
        exact ⟨yesNoFromLine l, by simp [hkw, hfind], yesNoFromLine_shape l⟩
    · left
      simp [hkw]

lemma checklistAnswer_shape (zh : List Char) (lines : List (List Char)) (a : List Char)
    (h : checklistAnswer zh lines = Except.ok a) :
    a = S "是" ∨ a = S "否" := by
  unfold checklistAnswer at h
  cases h1 : firstPassAnswer zh lines with
  | error e =>
    rw [h1] at h
    cases h
  | ok o =>
    cases o with
    | some b =>
      rw [h1] at h
      injection h with hb
      subst hb
      exact firstPassAnswer_shape zh lines _ h1
    | none =>
      rw [h1] at h
      cases h2 : secondPassAnswer zh lines with
      | some b =>
        rw [h2] at h
        injection h with hb
        subst hb
        exact secondPassAnswer_shape zh lines _ h2
      | none =>
        rw [h2] at h
        cases h3 : thirdPassAnswer zh lines with
        | some b =>
          rw [h3] at h
          injection h with hb
          subst hb
          exact thirdPassAnswer_shape zh lines _ h3
        | none =>
          rw [h3] at h
          injection h with hb
          subst hb
          exact Or.inr rfl

lemma checklistAnswer_default (zh : List Char) (lines : List (List Char))
    (h1 : firstPassAnswer zh lines = Except.ok none)
    (h2 : secondPassAnswer zh lines = none)
    (h3 : thirdPassAnswer zh lines = none) :
    checklistAnswer zh lines = Except.ok (S "否") := by
  unfold checklistAnswer
  rw [h1, h2, h3]

lemma checklistAnswers_fst (lines : List (List Char)) :
    ∀ (qs : List (List Char)) (m : List (List Char × List Char)),
      checklistAnswers lines qs = Except.ok m → m.map Prod.fst = qs := by
  intro qs
  induction qs with
  | nil =>
    intro m h
    unfold checklistAnswers at h
    injection h with h'
    subst h'
    rfl
  | cons q qs ih =>
    intro m h
    unfold checklistAnswers at h
    cases h1 : checklistAnswer q lines with
    | error e =>
      rw [h1] at h
      cases h
    | ok a =>
      rw [h1] at h
      cases h2 : checklistAnswers lines qs with
      | error e =>
        rw [h2] at h
        cases h
      | ok tail =>
        rw [h2] at h
        injection h with h'
        subst h'
        simp [ih tail h2]

lemma checklistAnswers_values (lines : List (List Char)) :
    ∀ (qs : List (List Char)) (m : List (List Char × List Char)),
      checklistAnswers lines qs = Except.ok m →
      ∀ p ∈ m, checklistAnswer p.1 lines = Except.ok p.2 := by
  intro qs
  induction qs with
  | nil =>
    intro m h p hp
    unfold checklistAnswers at h
    injection h with h'
    subst h'
    cases hp
  | cons q qs ih =>
    intro m h p hp
    unfold checklistAnswers at h
    cases h1 : checklistAnswer q lines with
    | error e =>
      rw [h1] at h
      cases h
    | ok a =>
      rw [h1] at h
      cases h2 : checklistAnswers lines qs with
      | error e =>
        rw [h2] at h
        cases h
      | ok tail =>
        rw [h2] at h
        injection h with h'
        subst h'
        rcases List.mem_cons.mp hp with hp | hp
        · subst hp
          exact h1
        · exact ih tail h2 p hp

lemma checklistAnswers_lookup (lines : List (List Char)) :
    ∀ (qs : List (List Char)) (m : List (List Char × List Char)),
      checklistAnswers lines qs = Except.ok m →
      ∀ zh ∈ qs, ∃ a, List.lookup zh m = some a ∧ checklistAnswer zh lines = Except.ok a := by
  intro qs
  induction qs with
  | nil =>
    intro m h zh hzh
    cases hzh
  | cons q qs ih =>
    intro m h zh hzh
    unfold checklistAnswers at h
    cases h1 : checklistAnswer q lines with
    | error e =>
      rw [h1] at h
      cases h
    | ok a =>
      rw [h1] at h
      cases h2 : checklistAnswers lines qs with
      | error e =>
        rw [h2] at h
        cases h
      | ok tail =>
        rw [h2] at h
        injection h with h'
        subst h'
        by_cases hq : zh = q
        · subst hq
          exact ⟨a, by simp [List.lookup], h1⟩
        · have hzh' : zh ∈ qs := by
            rcases List.mem_cons.mp hzh with h' | h'
            · exact absurd h' hq
            · exact h'
          obtain ⟨b, hb1, hb2⟩ := ih tail h2 zh hzh'
          refine ⟨b, ?_, hb2⟩
          rw [List.lookup_cons]
          simp [beq_eq_false_iff_ne.mpr hq, hb1]

/-- C1 (amended): whenever the checklist extraction completes without
raising, the produced map lists exactly the 8 canonical question
identifiers in canonical order, every value is 是 or 否, and a question none
of the three passes can answer is mapped to the default 否. The unamended
claim fails because the first pass raises on a line holding a question
identifier but no ASCII colon (see the counterexample theorem). -/
theorem checklist_fully_populated (response_text : List Char)
    (m : List (List Char × List Char))
    (hm : extract_specific_questions response_text = Except.ok m) :
    m.map Prod.fst = key_questions ∧
    (∀ p ∈ m, p.2 = S "是" ∨ p.2 = S "否") ∧
    (∀ zh ∈ key_questions,
      firstPassAnswer zh (pySplit '\n' response_text) = Except.ok none →
      secondPassAnswer zh (pySplit '\n' response_text) = none →
      thirdPassAnswer zh (pySplit '\n' response_text) = none →
      List.lookup zh m = some (S "否")) := by
  unfold extract_specific_questions at hm
  refine ⟨checklistAnswers_fst _ _ _ hm, ?_, ?_⟩
  · intro p hp
    exact checklistAnswer_shape p.1 _ p.2 (checklistAnswers_values _ _ _ hm p hp)
  · intro zh hzh h1 h2 h3
    obtain ⟨a, hl, ha⟩ := checklistAnswers_lookup _ _ _ hm zh hzh
    have hdef := checklistAnswer_default zh _ h1 h2 h3
    rw [ha] at hdef
    injection hdef with h'
    rw [hl, h']

/-- Counterexample for C1 as stated: on the checklist response consisting of
the single line 是否為 ILD (a canonical question identifier with no colon),
the extraction raises instead of producing any map, so no fully populated
map is returned for this text. -/
theorem checklist_extraction_aborts :
    extract_specific_questions (S "是否為 ILD") = Except.error () := by rfl

/-- Witness for C1 at a well-formatted combined response covering all 8
questions. -/
theorem checklist_fully_populated_witness :
    extract_specific_questions
        (S "是否為 ILD: 是\n是否為 Indeterminate: 否\n是否為 UIP: 是\n是否還有 NSIP pattern: 否\n是否還有免風疾病活動性(activity) 病變: 否\n是否 ILD 持續進展: 是\n是否調整免疫治療藥物: 是\n是否建議使用抗肺纖維化藥物: 否") =
      Except.ok
        [(S "是否為 ILD", S "是"),
         (S "是否為 Indeterminate", S "否"),
         (S "是否為 UIP", S "是"),
         (S "是否還有 NSIP pattern", S "否"),
         (S "是否還有免風疾病活動性(activity) 病變", S "否"),
         (S "是否 ILD 持續進展", S "是"),
         (S "是否調整免疫治療藥物", S "是"),
         (S "是否建議使用抗肺纖維化藥物", S "否")] ∧
    ([(S "是否為 ILD", S "是"),
      (S "是否為 Indeterminate", S "否"),
      (S "是否為 UIP", S "是"),
      (S "是否還有 NSIP pattern", S "否"),
      (S "是否還有免風疾病活動性(activity) 病變", S "否"),
      (S "是否 ILD 持續進展", S "是"),
      (S "是否調整免疫治療藥物", S "是"),
      (S "是否建議使用抗肺纖維化藥物", S "否")] :
        List (List Char × List Char)).map Prod.fst = key_questions :=
  ⟨by rfl,
   (checklist_fully_populated
      (S "是否為 ILD: 是\n是否為 Indeterminate: 否\n是否為 UIP: 是\n是否還有 NSIP pattern: 否\n是否還有免風疾病活動性(activity) 病變: 否\n是否 ILD 持續進展: 是\n是否調整免疫治療藥物: 是\n是否建議使用抗肺纖維化藥物: 否")
      _ (by rfl)).1⟩

/-- C5 (failing input): on the checklist response 是否為 UIP： 是 — which
answers with a full-width colon — the first pass locates the line for the
identifier 是否為 UIP, finds no ASCII colon, and the modelled
`line.split(":", 1)[1]` subscript raises, aborting the extraction instead of
degrading to defaults. -/
theorem checklist_first_pass_raises :
    extract_specific_questions (S "是否為 UIP： 是") = Except.error () := by rfl

lemma respondMany_memory_length (backend : List (String × String) → String → String) :
    ∀ (inputs : List String) (a : SAgent),
      (respondMany backend a inputs).memory.length = a.memory.length + 2 * inputs.length := by
  intro inputs
  induction inputs with
  | nil => intro a; simp [respondMany]
  | cons input rest ih =>
    intro a
    have hmem : (respond backend a input).1.memory.length = a.memory.length + 2 := by
      simp [respond]
    simp only [respondMany]
    rw [ih (respond backend a input).1, hmem]
    simp only [List.length_cons]
    omega

lemma respondMany_append (backend : List (String × String) → String → String) :
    ∀ (xs ys : List String) (a : SAgent),
      respondMany backend a (xs ++ ys) = respondMany backend (respondMany backend a xs) ys := by
  intro xs
  induction xs with
  | nil => intro ys a; rfl
  | cons x xs ih =>
    intro ys a
    simp only [List.cons_append, respondMany]
    exact ih ys _

lemma respondMany_memory_extends (backend : List (String × String) → String → String) :
    ∀ (inputs : List String) (a : SAgent),
      a.memory <+: (respondMany backend a inputs).memory := by
  intro inputs
  induction inputs with
  | nil => intro a; exact List.prefix_rfl
  | cons input rest ih =>
    intro a
    have h1 : a.memory <+: (respond backend a input).1.memory := by
      simp only [respond]
      exact List.prefix_append _ _
    exact h1.trans (ih (respond backend a input).1)

lemma respondContexts_get (backend : List (String × String) → String → String) :
    ∀ (inputs : List String) (a : SAgent) (n : Nat)
      (hn : n < (respondContexts backend a inputs).length),
      (respondContexts backend a inputs).get ⟨n, hn⟩ =
        (respondMany backend a (inputs.take n)).memory := by
  intro inputs
  induction inputs with
  | nil =>
    intro a n hn
    simp [respondContexts] at hn
  | cons input rest ih =>
    intro a n hn
    cases n with
    | zero => rfl
    | succ n =>
      have h := ih (respond backend a input).1 n (by
        simpa [respondContexts] using hn)
      simpa [respondContexts, respondMany, List.get, List.take] using h

/-- C6: starting from the fresh Agent built by `create_specialist`, after N
`respond` calls the stored memory holds exactly 2N turns; the context of the
(n+1)-th call is exactly the memory accumulated by the first n calls; and
the memory after any earlier number of calls is a prefix of the memory after
any later number, so every call context includes all turns of the preceding
calls. -/
theorem memory_accumulation (backend : List (String × String) → String → String)
    (inputs : List String) :
    (respondMany backend create_agent inputs).memory.length = 2 * inputs.length ∧
    (∀ n (hn : n < (respondContexts backend create_agent inputs).length),
      (respondContexts backend create_agent inputs).get ⟨n, hn⟩ =
        (respondMany backend create_agent (inputs.take n)).memory) ∧
    (∀ m n : Nat, m ≤ n →
      (respondMany backend create_agent (inputs.take m)).memory <+:
        (respondMany backend create_agent (inputs.take n)).memory) := by
  refine ⟨?_, respondContexts_get backend inputs create_agent, ?_⟩
  · have h := respondMany_memory_length backend inputs create_agent
    simpa [create_agent] using h
  · intro m n hmn
    have hsplit : inputs.take n = inputs.take m ++ (inputs.take n).drop m := by
      conv_lhs => rw [← List.take_append_drop m (inputs.take n)]
      rw [List.take_take, Nat.min_eq_left hmn]
    rw [hsplit, respondMany_append]
    exact respondMany_memory_extends backend _ _

/-- Witness for C6 with a two-call run against a constant backend. -/
theorem memory_accumulation_witness :
    (respondMany (fun _ _ => "ack") create_agent ["first question", "second question"]).memory.length =
      2 * 2 ∧
    (respondMany (fun _ _ => "ack") create_agent
        (["first question", "second question"].take 1)).memory <+:
      (respondMany (fun _ _ => "ack") create_agent
        (["first question", "second question"].take 2)).memory :=
  ⟨(memory_accumulation (fun _ _ => "ack") ["first question", "second question"]).1,
   (memory_accumulation (fun _ _ => "ack") ["first question", "second question"]).2.2 1 2
     (by decide)⟩

lemma questionLoop_spec (backend : List (String × String) → String → String) (question : String)
    (coordMem0 : List String) :
    ∀ (sel : List String) (st : DiscussionState),
      st.coordMem = coordMem0 ++ st.responses.map (fun p => relayMessage p.1 p.2) →
      st.invocations.length = st.responses.length →
      st.invocations.map Prod.fst = st.responses.map Prod.fst →
      (∀ i (hi : i < st.invocations.length),
        (st.invocations.get ⟨i, hi⟩).2 =
          coordMem0 ++ (st.responses.take i).map (fun p => relayMessage p.1 p.2)) →
      ((questionLoop backend question sel st).invocations.map Prod.fst =
          st.invocations.map Prod.fst ++ sel ∧
        (questionLoop backend question sel st).responses.map Prod.fst =
          st.responses.map Prod.fst ++ sel ∧
        (questionLoop backend question sel st).invocations.length =
          (questionLoop backend question sel st).responses.length ∧
        (∀ i (hi : i < (questionLoop backend question sel st).invocations.length),
          ((questionLoop backend question sel st).invocations.get ⟨i, hi⟩).2 =
            coordMem0 ++
              ((questionLoop backend question sel st).responses.take i).map
                (fun p => relayMessage p.1 p.2))) := by
  intro sel
  induction sel with
  | nil =>
    intro st hcoord hlen hfst hget
    simp only [questionLoop]
    exact ⟨by simp, by simp, hlen, hget⟩
  | cons name rest ih =>
    intro st hcoord hlen hfst hget
    have hloop : questionLoop backend question (name :: rest) st =
        questionLoop backend question rest
          { coordMem := st.coordMem ++
              [relayMessage name (backend (st.specMem name) (specialistContext question name))],
            specMem := fun n =>
              if n = name then
                st.specMem name ++
                  [("user", specialistContext question name),
                   ("assistant", backend (st.specMem name) (specialistContext question name))]
              else st.specMem n,
            responses := st.responses ++
              [(name, backend (st.specMem name) (specialistContext question name))],
            invocations := st.invocations ++ [(name, st.coordMem)] } := rfl
    have hstep := ih
      { coordMem := st.coordMem ++
          [relayMessage name (backend (st.specMem name) (specialistContext question name))],
        specMem := fun n =>
          if n = name then
            st.specMem name ++
              [("user", specialistContext question name),
               ("assistant", backend (st.specMem name) (specialistContext question name))]
          else st.specMem n,
        responses := st.responses ++
          [(name, backend (st.specMem name) (specialistContext question name))],
        invocations := st.invocations ++ [(name, st.coordMem)] }
      (by simp [hcoord])
      (by simp [hlen])
      (by simp [hfst])
      (by
        intro i hi
        simp only [List.length_append, List.length_cons, List.length_nil] at hi
        rcases Nat.lt_succ_iff_lt_or_eq.mp (by omega : i < st.invocations.length + 1) with hlt | heq
        · have h1 : (st.invocations ++ [(name, st.coordMem)]).get
              ⟨i, by simp; omega⟩ = st.invocations.get ⟨i, hlt⟩ := by
            simp [List.get_eq_getElem, List.getElem_append, hlt]
          have h2 : ((st.responses ++
              [(name, backend (st.specMem name) (specialistContext question name))]).take i) =
              st.responses.take i :=
            List.take_append_of_le_length (by omega)
          simp only [h1, h2]
          exact hget i hlt
        · subst heq
          have h1 : (st.invocations ++ [(name, st.coordMem)]).get
              ⟨st.invocations.length, by simp⟩ = (name, st.coordMem) := by
            simp [List.get_eq_getElem, List.getElem_append_right]
          have h2 : ((st.responses ++
              [(name, backend (st.specMem name) (specialistContext question name))]).take
                st.invocations.length) = st.responses := by
            rw [hlen, List.take_append_of_le_length (Nat.le_refl _), List.take_length]
          simp only [h1, h2]
          exact hcoord)
    rw [hloop]
    refine ⟨?_, ?_, hstep.2.2.1, hstep.2.2.2⟩
    · rw [hstep.1]
      simp
    · rw [hstep.2.1]
      simp

/-- C7: within one discussion question the selected specialists are invoked
strictly one at a time in the given order — the invocation trace lists
exactly the selected roster names in order — and the coordinator memory at
the moment of the i-th invocation consists of the initial memory plus
precisely the relayed responses of the i previously invoked specialists, so
each response is appended before the next specialist is invoked. -/
theorem specialists_sequential (backend : List (String × String) → String → String)
    (question : String) (coordMem0 : List String)
    (specMem0 : String → List (String × String)) (selected : List String) :
    (runQuestion backend question coordMem0 specMem0 selected).invocations.map Prod.fst =
      selected ∧
    (runQuestion backend question coordMem0 specMem0 selected).responses.map Prod.fst =
      selected ∧
    (∀ i (hi : i < (runQuestion backend question coordMem0 specMem0 selected).invocations.length),
      ((runQuestion backend question coordMem0 specMem0 selected).invocations.get ⟨i, hi⟩).2 =
        coordMem0 ++
          (((runQuestion backend question coordMem0 specMem0 selected).responses.take i).map
            (fun p => relayMessage p.1 p.2))) := by
  have h := questionLoop_spec backend question coordMem0 selected
    ⟨coordMem0, specMem0, [], []⟩ (by simp) rfl rfl
    (by intro i hi; simp at hi)
  exact ⟨by simpa using h.1, by simpa using h.2.1, h.2.2.2⟩

/-- Witness for C7: a two-specialist selection against a constant backend;
the second invocation sees exactly the relay of the first response. -/
theorem specialists_sequential_witness :
    (runQuestion (fun _ _ => "ok") "Q" [] (fun _ => []) ["radiologist", "cardiologist"]).invocations.map
        Prod.fst = ["radiologist", "cardiologist"] ∧
    ((runQuestion (fun _ _ => "ok") "Q" [] (fun _ => [])
        ["radiologist", "cardiologist"]).invocations.get ⟨1, by decide⟩).2 =
      [] ++
        (((runQuestion (fun _ _ => "ok") "Q" [] (fun _ => [])
            ["radiologist", "cardiologist"]).responses.take 1).map
          (fun p => relayMessage p.1 p.2)) :=
  ⟨(specialists_sequential (fun _ _ => "ok") "Q" [] (fun _ => [])
      ["radiologist", "cardiologist"]).1,
   (specialists_sequential (fun _ _ => "ok") "Q" [] (fun _ => [])
      ["radiologist", "cardiologist"]).2.2 1 (by decide)⟩

/-- C8: on any fatal failure of the meeting run, the caller of the
per-patient analysis receives exactly the error-branch record, in which
every AnalysisResult schema field is present: identifier fields, the three
descriptive placeholder summaries, risk level Unknown, a non-empty
risk-factor list, and the empty checklist; the batch analyzer delivers the
same record to its caller. -/
theorem fatal_failure_schema
    (run_meeting : List (String × PyVal) → Except String (List (String × PyVal)))
    (patient_data : List (String × PyVal)) (e : String)
    (hfail : run_meeting patient_data = Except.error e) :
    analyze_patient_with_langchain run_meeting patient_data =
      analysis_error_record patient_data e ∧
    List.lookup "patient_id" (analyze_patient_with_langchain run_meeting patient_data) =
      some (pyDictGet patient_data "id" (PyVal.s "unknown")) ∧
    List.lookup "patient_name" (analyze_patient_with_langchain run_meeting patient_data) =
      some (pyDictGet patient_data "name" (PyVal.s "unknown")) ∧
    List.lookup "diagnosis_analysis" (analyze_patient_with_langchain run_meeting patient_data) =
      some (PyVal.s ("Analysis could not be completed: " ++ e)) ∧
    List.lookup "treatment_recommendations"
        (analyze_patient_with_langchain run_meeting patient_data) =
      some (PyVal.s "No recommendations available due to analysis error") ∧
    List.lookup "progression_assessment"
        (analyze_patient_with_langchain run_meeting patient_data) =
      some (PyVal.s "No assessment available due to analysis error") ∧
    List.lookup "risk_level" (analyze_patient_with_langchain run_meeting patient_data) =
      some (PyVal.s "Unknown") ∧
    List.lookup "risk_factors" (analyze_patient_with_langchain run_meeting patient_data) =
      some (PyVal.list [PyVal.s "Analysis error"]) ∧
    PyVal.list [PyVal.s "Analysis error"] ≠ PyVal.list [] ∧
    List.lookup "specific_questions" (analyze_patient_with_langchain run_meeting patient_data) =
      some (PyVal.dict []) ∧
    analyze_patients_with_langchain run_meeting [patient_data] =
      [analysis_error_record patient_data e] := by
  have hrec : analyze_patient_with_langchain run_meeting patient_data =
      analysis_error_record patient_data e := by
    unfold analyze_patient_with_langchain analyze_try_body
    rw [hfail]
  rw [hrec]
  refine ⟨rfl, rfl, rfl, rfl, rfl, rfl, rfl, rfl, by simp, rfl, ?_⟩
  unfold analyze_patients_with_langchain
  rw [List.map_singleton, hrec]

/-- Witness for C8 at a concrete failing backend and patient record. -/
theorem fatal_failure_schema_witness :
    (fun _ : List (String × PyVal) =>
        (Except.error "backend unavailable" : Except String (List (String × PyVal))))
      [("id", PyVal.s "P3"), ("name", PyVal.s "Chen")] =
      Except.error "backend unavailable" ∧
    analyze_patient_with_langchain
        (fun _ => Except.error "backend unavailable")
        [("id", PyVal.s "P3"), ("name", PyVal.s "Chen")] =
      analysis_error_record [("id", PyVal.s "P3"), ("name", PyVal.s "Chen")]
        "backend unavailable" :=
  ⟨rfl,
   (fatal_failure_schema (fun _ => Except.error "backend unavailable")
      [("id", PyVal.s "P3"), ("name", PyVal.s "Chen")] "backend unavailable" rfl).1⟩

/-- C10: a patient record lacking the key id (or the key name) receives the
error-branch record even when the meeting run itself completed successfully,
because the success branch reads both keys with raising subscripts; the
successful meeting results are discarded. A missing id yields patient_id
unknown together with the Unknown/sentinel/empty-checklist error values; a
missing name (with id present) likewise yields the error-branch record. -/
theorem missing_keys_discard_meeting
    (run_meeting : List (String × PyVal) → Except String (List (String × PyVal)))
    (patient_data : List (String × PyVal)) (results : List (String × PyVal))
    (hok : run_meeting patient_data = Except.ok results) :
    (List.lookup "id" patient_data = none →
      analyze_patient_with_langchain run_meeting patient_data =
        analysis_error_record patient_data ("KeyError: " ++ "id") ∧
      List.lookup "patient_id" (analyze_patient_with_langchain run_meeting patient_data) =
        some (PyVal.s "unknown") ∧
      List.lookup "risk_level" (analyze_patient_with_langchain run_meeting patient_data) =
        some (PyVal.s "Unknown") ∧
      List.lookup "risk_factors" (analyze_patient_with_langchain run_meeting patient_data) =
        some (PyVal.list [PyVal.s "Analysis error"]) ∧
      List.lookup "specific_questions" (analyze_patient_with_langchain run_meeting patient_data) =
        some (PyVal.dict [])) ∧
    (∀ pid, List.lookup "id" patient_data = some pid →
      List.lookup "name" patient_data = none →
      analyze_patient_with_langchain run_meeting patient_data =
        analysis_error_record patient_data ("KeyError: " ++ "name") ∧
      List.lookup "risk_level" (analyze_patient_with_langchain run_meeting patient_data) =
        some (PyVal.s "Unknown") ∧
      List.lookup "risk_factors" (analyze_patient_with_langchain run_meeting patient_data) =
        some (PyVal.list [PyVal.s "Analysis error"]) ∧
      List.lookup "specific_questions" (analyze_patient_with_langchain run_meeting patient_data) =
        some (PyVal.dict [])) := by
  constructor
  · intro hid
    have hrec : analyze_patient_with_langchain run_meeting patient_data =
        analysis_error_record patient_data ("KeyError: " ++ "id") := by
      unfold analyze_patient_with_langchain analyze_try_body
      rw [hok]
      unfold analysis_success_record pyDictItem
      rw [hid]
    rw [hrec]
    refine ⟨rfl, ?_, rfl, rfl, rfl⟩
    unfold analysis_error_record pyDictGet
    rw [hid]
    rfl
  · intro pid hid hname
    have hrec : analyze_patient_with_langchain run_meeting patient_data =
        analysis_error_record patient_data ("KeyError: " ++ "name") := by
      unfold analyze_patient_with_langchain analyze_try_body
      rw [hok]
      unfold analysis_success_record pyDictItem
      rw [hid, hname]
    rw [hrec]
    exact ⟨rfl, rfl, rfl, rfl⟩

/-- Witness for C10: a successful meeting run on a record lacking the id
key still produces the error-branch record. -/
theorem missing_keys_discard_meeting_witness :
    ((fun _ : List (String × PyVal) =>
        (Except.ok [] : Except String (List (String × PyVal))))
      [("name", PyVal.s "Chen")] = Except.ok [] ∧
      List.lookup "id" ([("name", PyVal.s "Chen")] : List (String × PyVal)) = none) ∧
    (analyze_patient_with_langchain (fun _ => Except.ok [])
        [("name", PyVal.s "Chen")] =
      analysis_error_record [("name", PyVal.s "Chen")] ("KeyError: " ++ "id") ∧
      List.lookup "patient_id"
          (analyze_patient_with_langchain (fun _ => Except.ok []) [("name", PyVal.s "Chen")]) =
        some (PyVal.s "unknown") ∧
      List.lookup "risk_level"
          (analyze_patient_with_langchain (fun _ => Except.ok []) [("name", PyVal.s "Chen")]) =
        some (PyVal.s "Unknown") ∧
      List.lookup "risk_factors"
          (analyze_patient_with_langchain (fun _ => Except.ok []) [("name", PyVal.s "Chen")]) =
        some (PyVal.list [PyVal.s "Analysis error"]) ∧
      List.lookup "specific_questions"
          (analyze_patient_with_langchain (fun _ => Except.ok []) [("name", PyVal.s "Chen")]) =
        some (PyVal.dict [])) :=
  ⟨⟨rfl, rfl⟩,
   (missing_keys_discard_meeting (fun _ => Except.ok []) [("name", PyVal.s "Chen")] [] rfl).1
     rfl⟩

end ILD
